import Mathlib

/-!
# Verification of gorm's prepared-statement cache and session/clone engine

A shallow embedding of `src/prepare_stmt.go` and `src/gorm.go`:
the prepared-statement connection pool (`PreparedStmtDB`), the
transactional wrapper (`PreparedStmtTX`), and the session/clone engine
(`DB.Session`, `DB.getInstance`, `DB.AddError`, `DB.Use`).

Go errors are modelled by the inductive `GoErr`; `fmt.Errorf("%v; %w", a, b)`
becomes `GoErr.combine a b`.  The statement store (`internal/stmt_store`,
whose source is not part of the reviewed files) is modelled from the spec
as an association list keyed by the SQL template.  Locks are modelled by
snapshots: `prepare` receives the store as seen under the read lock and
the store as seen under the write lock, so the double-checked pattern is
an honest two-stage lookup.
-/

namespace Gorm

/-- Go `error` values used by this core.  `combine a b` is
`fmt.Errorf("%v; %w", a, b)`: the text of `a`, a separator, then `b`,
with `b` being the wrapped (unwrappable) error. -/
inductive GoErr where
  | badConn
  | invalidTransaction
  | invalidDB
  | registered
  | msg (s : String)
  | combine (a b : GoErr)
deriving DecidableEq, Repr

/-- The rendered error text: `combine` prints as `"%v; %w"` does. -/
def GoErr.text : GoErr → String
  | .badConn => "driver: bad connection"
  | .invalidTransaction => "invalid transaction"
  | .invalidDB => "invalid db"
  | .registered => "register duplicated"
  | .msg s => s
  | .combine a b => a.text ++ "; " ++ b.text

/-- `errors.Is(e, driver.ErrBadConn)`: `%w` wraps the second operand, so
`errors.Is` unwraps along the right spine of `combine`. -/
def GoErr.isBadConn : GoErr → Bool
  | .badConn => true
  | .combine _ b => b.isBadConn
  | _ => false

/-- A compiled statement as held by the statement store: the driver-level
prepared handle (an abstract identifier), the `Transaction` flag recording
whether it was compiled inside a transaction, and the cached compile
error, if compilation failed (`stmt_store.Stmt`). -/
structure GStmt where
  handle : Nat
  Transaction : Bool
  err : Option GoErr
deriving DecidableEq, Repr

/-- `Stmt.Error()`: the cached compile-time error of the entry. -/
def GStmt.Error (s : GStmt) : Option GoErr := s.err

/-- Modelled from the spec: the statement store (`internal/stmt_store`,
not among the reviewed source files) is "a bounded mapping from Query
Template to Compiled Statement"; eviction by LRU/TTL is capacity policy
orthogonal to the claims and is not modelled.  An association list keyed
by the template, newest entry first. -/
def Store := List (String × GStmt)
deriving DecidableEq, Repr

/-- Modelled from the spec: `Store.Get` — look up the entry cached under
a template. -/
def Store.Get (s : Store) (q : String) : Option GStmt :=
  (List.find? (fun e => e.1 = q) s).map Prod.snd

/-- Modelled from the spec: `evict(template)` "removes and releases an
entry; idempotent if absent" (`Store.Delete`). -/
def Store.Delete (s : Store) (q : String) : Store :=
  List.filter (fun e => e.1 ≠ q) s

/-- Modelled from the spec: store an entry under its template, replacing
any previous entry under the same key. -/
def Store.Set (s : Store) (q : String) (v : GStmt) : Store :=
  (q, v) :: s.Delete q

/-- The compile capability of a connection: `PrepareContext` yields a
driver-level handle or an error. -/
def Compiler := String → Except GoErr Nat

/-- Modelled from the spec: `Store.New` — "compile a new statement against
`connection`, tag it with `in_transaction`, insert into the store under
`template`, and return it"; a compile failure is "cached alongside the
template so repeated use doesn't re-attempt compilation".  Returns the
updated store, the entry, and the error to hand to the caller. -/
def Store.New (s : Store) (compile : Compiler) (isTransaction : Bool)
    (q : String) : Store × GStmt × Option GoErr :=
  match compile q with
  | .ok h =>
      let st : GStmt := ⟨h, isTransaction, none⟩
      (s.Set q st, st, none)
  | .error e =>
      let st : GStmt := ⟨0, isTransaction, some e⟩
      (s.Set q st, st, some e)

/-- `PreparedStmtDB.prepare` (src/prepare_stmt.go:73-96).  `s1` is the
store as observed under the read lock, `s2` the store as observed after
re-acquiring the write lock (they differ only when a concurrent writer
intervened).  Returns the resulting store, the statement, and the error
returned to the caller (`stmt.Error()` on a hit). -/
def prepare (compile : Compiler) (s1 s2 : Store) (isTransaction : Bool)
    (q : String) : Store × GStmt × Option GoErr :=
  match s1.Get q with
  | some stmt =>
      if !stmt.Transaction || isTransaction then (s2, stmt, stmt.Error)
      else prepareWrite compile s2 isTransaction q
  | none => prepareWrite compile s2 isTransaction q
where
  /-- The write-locked double check followed by `Stmts.New`. -/
  prepareWrite (compile : Compiler) (s2 : Store) (isTransaction : Bool)
      (q : String) : Store × GStmt × Option GoErr :=
    match s2.Get q with
    | some stmt =>
        if !stmt.Transaction || isTransaction then (s2, stmt, stmt.Error)
        else s2.New compile isTransaction q
    | none => s2.New compile isTransaction q

/-- Sequential view of `prepare`: no concurrent writer between the two
lock acquisitions, so both snapshots are the same store. -/
def prepareSeq (compile : Compiler) (s : Store) (isTransaction : Bool)
    (q : String) : Store × GStmt × Option GoErr :=
  prepare compile s s isTransaction q

/-- The execution capability backing `stmt.ExecContext` /
`stmt.QueryContext` for statements of one pool, and
`tx.StmtContext(stmt).…` for a transaction: handle to result or error. -/
def Runner := Nat → Except GoErr Nat

/-- A connection pool endpoint: how it compiles and how it runs compiled
statements. -/
structure GConn where
  compile : Compiler
  run : Runner

/-- `PreparedStmtDB.ExecContext` (src/prepare_stmt.go:123-132): prepare
with `isTransaction = false`, execute, and on `driver.ErrBadConn` evict
the template before returning the error. -/
def PreparedStmtDB.ExecContext (p : GConn) (s : Store) (q : String) :
    Store × Except GoErr Nat :=
  match prepareSeq p.compile s false q with
  | (s', stmt, none) =>
      match p.run stmt.handle with
      | .ok r => (s', .ok r)
      | .error e => ((if e.isBadConn then s'.Delete q else s'), .error e)
  | (s', _, some e) => (s', .error e)

/-- `PreparedStmtDB.QueryContext` (src/prepare_stmt.go:138-147): same
shape as `ExecContext`. -/
def PreparedStmtDB.QueryContext (p : GConn) (s : Store) (q : String) :
    Store × Except GoErr Nat :=
  match prepareSeq p.compile s false q with
  | (s', stmt, none) =>
      match p.run stmt.handle with
      | .ok r => (s', .ok r)
      | .error e => ((if e.isBadConn then s'.Delete q else s'), .error e)
  | (s', _, some e) => (s', .error e)

/-- `PreparedStmtDB.QueryRowContext` (src/prepare_stmt.go:149-155): on
successful preparation it returns the row produced by
`stmt.QueryRowContext` (which carries any execution error inside the
`sql.Row`, uninspected); on a prepare error it returns the empty
`&sql.Row{}`, modelled as `none`.  The store is never touched after
preparation. -/
def PreparedStmtDB.QueryRowContext (p : GConn) (s : Store) (q : String) :
    Store × Option (Except GoErr Nat) :=
  match prepareSeq p.compile s false q with
  | (s', stmt, none) => (s', some (p.run stmt.handle))
  | (s', _, some _) => (s', none)

/-- A live `Tx`: its compile capability (`tx.Tx` as the `conn` argument of
`prepare`), the dispatch of a compiled statement through
`tx.Tx.StmtContext` against the transaction's own connection, and the
results of `Commit` / `Rollback`. -/
structure GTx where
  compile : Compiler
  stmtRun : Runner
  commitRes : Option GoErr
  rollbackRes : Option GoErr

/-- `PreparedStmtTX`: the wrapper holds an optional bound transaction
(`nil` and typed-nil interfaces are both `none`). -/
structure PreparedStmtTX where
  tx : Option GTx

/-- `PreparedStmtTX.Commit` (src/prepare_stmt.go:174-179). -/
def PreparedStmtTX.Commit (w : PreparedStmtTX) : Option GoErr :=
  match w.tx with
  | some t => t.commitRes
  | none => some .invalidTransaction

/-- `PreparedStmtTX.Rollback` (src/prepare_stmt.go:181-186). -/
def PreparedStmtTX.Rollback (w : PreparedStmtTX) : Option GoErr :=
  match w.tx with
  | some t => t.rollbackRes
  | none => some .invalidTransaction

/-- `PreparedStmtTX.ExecContext` (src/prepare_stmt.go:188-197): prepare
with `isTransaction = true` against the transaction's connection, then
dispatch via `tx.Tx.StmtContext`; evict on `driver.ErrBadConn`. -/
def PreparedStmtTX.ExecContext (t : GTx) (s : Store) (q : String) :
    Store × Except GoErr Nat :=
  match prepareSeq t.compile s true q with
  | (s', stmt, none) =>
      match t.stmtRun stmt.handle with
      | .ok r => (s', .ok r)
      | .error e => ((if e.isBadConn then s'.Delete q else s'), .error e)
  | (s', _, some e) => (s', .error e)

/-- `PreparedStmtTX.QueryContext` (src/prepare_stmt.go:199-208). -/
def PreparedStmtTX.QueryContext (t : GTx) (s : Store) (q : String) :
    Store × Except GoErr Nat :=
  match prepareSeq t.compile s true q with
  | (s', stmt, none) =>
      match t.stmtRun stmt.handle with
      | .ok r => (s', .ok r)
      | .error e => ((if e.isBadConn then s'.Delete q else s'), .error e)
  | (s', _, some e) => (s', .error e)

/-! ## The session/clone engine (src/gorm.go) -/

/-- Pointer identity of a `PreparedStmtDB`'s shared resources: the
`Stmts` store and the `Mux` lock, as abstract identifiers. -/
structure PDBData where
  stmts : Nat
  mux : Nat
deriving DecidableEq, Repr

/-- The `ConnPool` interface values this core distinguishes: a raw pool
(`*sql.DB`), a live transaction (`Tx`), a `PreparedStmtDB` (its shared
store/lock identity plus the wrapped pool), and a `PreparedStmtTX`
(the wrapped `Tx` value plus the shared store identity).  `Tx` is
implemented by `transact` and `ptx` values, not by `raw` or `pdb`. -/
inductive ConnPool where
  | raw (id : Nat)
  | transact (id : Nat)
  | pdb (d : PDBData) (inner : ConnPool)
  | ptx (txv : ConnPool) (d : PDBData)
deriving DecidableEq, Repr

instance : Inhabited ConnPool := ⟨.raw 0⟩

/-- Whether the value satisfies Go's `case Tx:` type switch. -/
def ConnPool.isTx : ConnPool → Bool
  | .transact _ => true
  | .ptx _ _ => true
  | _ => false

/-- A plugin: its `Name()` and the outcome of `Initialize` on this
handle. -/
structure GPlugin where
  name : String
  initErr : Option GoErr
deriving DecidableEq, Repr

/-- The parts of `gorm.Config` the reviewed claims touch.  `translator`
is `some f` when the dialector implements `ErrorTranslator`. -/
structure GConfig where
  skipDefaultTransaction : Bool := false
  fullSaveAssociations : Bool := false
  dryRun : Bool := false
  prepareStmt : Bool := false
  disableNestedTransaction : Bool := false
  allowGlobalUpdate : Bool := false
  queryFields : Bool := false
  propagateUnscoped : Bool := false
  translateError : Bool := false
  createBatchSize : Int := 0
  connPool : ConnPool := .raw 0
  logger : Nat := 0
  nowFunc : Nat := 0
  plugins : List (String × GPlugin) := []
  translator : Option (GoErr → GoErr) := none

/-- The `gorm.Statement` request object (query-builder state); contexts,
clause values and bound variables are abstract tokens. -/
structure GStatement where
  connPool : ConnPool := .raw 0
  context : Nat := 0
  clauses : List (String × Nat) := []
  vars : List Nat := []
  skipHooks : Bool := false
  unscoped : Bool := false
deriving DecidableEq, Repr

instance : Inhabited GStatement := ⟨{}⟩

/-- Modelled from the spec: `Statement.clone` (statement.go, not among
the reviewed source files) — a "full structural copy of the request
object"; independence is realized by storing the copy under a fresh
heap reference. -/
def GStatement.clone (s : GStatement) : GStatement := s

/-- Statements live in a heap so that Go's sharing-by-pointer is
observable: a handle holds a reference, and two handles alias exactly
when their references are equal. -/
def SHeap := List (Nat × GStatement)
deriving DecidableEq, Repr

/-- Dereference. -/
def SHeap.get (h : SHeap) (r : Nat) : Option GStatement :=
  (List.find? (fun e => e.1 = r) h).map Prod.snd

/-- Write through a reference (also used for fresh allocation). -/
def SHeap.set (h : SHeap) (r : Nat) (v : GStatement) : SHeap :=
  (r, v) :: List.filter (fun e => e.1 ≠ r) h

/-- Ambient mutable state of one root handle's lineage: the statement
heap, a fresh-reference counter, the root's `cacheStore` entry under the
fixed key `preparedStmtDBKey` (holding the cached `PreparedStmtDB`:
its store/lock identity and the pool it wraps), and a counter for fresh
store/lock identities. -/
structure SState where
  heap : SHeap := []
  nextRef : Nat := 1
  cacheStore : Option (PDBData × ConnPool) := none
  nextId : Nat := 0
deriving Repr

/-- `gorm.Session`: the flag set passed to `DB.Session`. -/
structure GSession where
  dryRun : Bool := false
  prepareStmt : Bool := false
  newDB : Bool := false
  initialized : Bool := false
  skipHooks : Bool := false
  skipDefaultTransaction : Bool := false
  disableNestedTransaction : Bool := false
  allowGlobalUpdate : Bool := false
  fullSaveAssociations : Bool := false
  propagateUnscoped : Bool := false
  queryFields : Bool := false
  context : Option Nat := none
  logger : Option Nat := none
  nowFunc : Option Nat := none
  createBatchSize : Int := 0
deriving Repr

/-- The `gorm.DB` handle: config (copied by value on `Session`), the
accumulated error, the statement reference, and the `clone` generation
marker. -/
structure GDB where
  config : GConfig
  error : Option GoErr := none
  stmtRef : Nat := 0
  clone : Nat := 1

/-- `DB.getInstance` (src/gorm.go:516-545): on a handle with
`clone > 0`, build a new handle (whose `clone` field is the zero value
`0`) with a fresh statement — empty clauses and vars when `clone = 1`,
a structural clone of the current statement otherwise; on `clone = 0`,
return the handle itself. -/
def getInstance (st : SState) (db : GDB) : GDB × SState :=
  if db.clone > 0 then
    let parent := (st.heap.get db.stmtRef).getD default
    let newStmt : GStatement :=
      if db.clone = 1 then
        { connPool := parent.connPool, context := parent.context,
          clauses := [], vars := [], skipHooks := parent.skipHooks,
          unscoped := if db.config.propagateUnscoped then parent.unscoped
                      else false }
      else parent.clone
    (⟨db.config, db.error, st.nextRef, 0⟩,
     { st with heap := st.heap.set st.nextRef newStmt,
               nextRef := st.nextRef + 1 })
  else (db, st)

/-- The config-only flag overrides of `DB.Session`
(src/gorm.go:340-358). -/
def sessionConfig1 (c : GConfig) (cfg : GSession) : GConfig :=
  let c := if cfg.createBatchSize > 0 then
      { c with createBatchSize := cfg.createBatchSize } else c
  let c := if cfg.skipDefaultTransaction then
      { c with skipDefaultTransaction := true } else c
  let c := if cfg.allowGlobalUpdate then
      { c with allowGlobalUpdate := true } else c
  let c := if cfg.fullSaveAssociations then
      { c with fullSaveAssociations := true } else c
  if cfg.propagateUnscoped then { c with propagateUnscoped := true } else c

/-- The prepare-mode branch of `DB.Session` (src/gorm.go:369-394):
look up the `PreparedStmtDB` cached under the fixed key; if absent,
construct one wrapping the current pool (fresh store and lock
identities) and cache it; then replace the statement's `ConnPool` by a
`PreparedStmtTX` bound to the live transaction when the current value
is a `Tx`, and by a `PreparedStmtDB` sharing the same `Stmts`/`Mux`
otherwise.  Returns the updated state and the new pool value. -/
def sessionPrepare (st : SState) (rootConnPool : ConnPool) (stmtRef : Nat) :
    SState × ConnPool :=
  let (pd, st) :=
    match st.cacheStore with
    | some (d, _) => (d, st)
    | none =>
        let d : PDBData := ⟨st.nextId, st.nextId + 1⟩
        (d, { st with cacheStore := some (d, rootConnPool),
                      nextId := st.nextId + 2 })
  let cur := (st.heap.get stmtRef).getD default
  let newPool :=
    if cur.connPool.isTx then ConnPool.ptx cur.connPool pd
    else ConnPool.pdb pd rootConnPool
  ({ st with heap := st.heap.set stmtRef ({ cur with connPool := newPool }) },
   newPool)

/-- `DB.Session` (src/gorm.go:330-428).  The derived handle starts from a
value copy of the parent's config and shares the parent's statement
reference; a per-call context, prepare-mode, or hook-skipping forces a
clone of the statement first; `clone` becomes 2 unless `NewDB`; an
`Initialized` session ends with `getInstance`.  The prepare branch's
config update (`txConfig.ConnPool` / `txConfig.PrepareStmt`,
src/gorm.go:392-393) is applied after the remaining flag overrides
here; no later step of the source reads or writes those fields, so the
result is identical. -/
def Session (st : SState) (db : GDB) (cfg : GSession) : GDB × SState :=
  let needsOwn := cfg.context.isSome || cfg.prepareStmt || cfg.skipHooks
  let stmtRef := if needsOwn then st.nextRef else db.stmtRef
  let st1 :=
    if needsOwn then
      let parent := (st.heap.get db.stmtRef).getD default
      { st with heap := st.heap.set st.nextRef parent.clone,
                nextRef := st.nextRef + 1 }
    else st
  let st2 :=
    match cfg.context with
    | some c =>
        let cur := (st1.heap.get stmtRef).getD default
        { st1 with heap := st1.heap.set stmtRef ({ cur with context := c }) }
    | none => st1
  let st3 :=
    if cfg.prepareStmt then (sessionPrepare st2 db.config.connPool stmtRef).1
    else st2
  let st4 :=
    if cfg.skipHooks then
      let cur := (st3.heap.get stmtRef).getD default
      { st3 with heap := st3.heap.set stmtRef ({ cur with skipHooks := true }) }
    else st3
  let cloneN : Nat := if cfg.newDB then 1 else 2
  let txConfig := sessionConfig1 db.config cfg
  let txConfig := if cfg.disableNestedTransaction then
      { txConfig with disableNestedTransaction := true } else txConfig
  let txConfig := if cfg.dryRun then { txConfig with dryRun := true }
    else txConfig
  let txConfig := if cfg.queryFields then { txConfig with queryFields := true }
    else txConfig
  let txConfig :=
    match cfg.logger with
    | some l => { txConfig with logger := l }
    | none => txConfig
  let txConfig :=
    match cfg.nowFunc with
    | some f => { txConfig with nowFunc := f }
    | none => txConfig
  let txConfig :=
    if cfg.prepareStmt then
      { txConfig with
        connPool := (sessionPrepare st2 db.config.connPool stmtRef).2,
        prepareStmt := true }
    else txConfig
  let tx : GDB :=
    { config := txConfig, error := db.error, stmtRef := stmtRef,
      clone := cloneN }
  if cfg.initialized then getInstance st4 tx else (tx, st4)

/-- A mutation of a handle's request object through its reference:
prepend a clause.  Used to observe sharing vs. isolation. -/
def addClause (st : SState) (db : GDB) (n : String) (v : Nat) : SState :=
  match st.heap.get db.stmtRef with
  | some s =>
      let s2 := { s with clauses := (n, v) :: s.clauses }
      { st with heap := st.heap.set db.stmtRef s2 }
  | none => st

/-- `DB.AddError` (src/gorm.go:476-491): a `nil` argument leaves the
stored error alone; otherwise the argument is translated when
`TranslateError` is set and the dialector offers a translator, then
stored directly if no error is held, or wrapped behind the held error
with `fmt.Errorf("%v; %w", db.Error, err)`; the resulting stored error
is returned. -/
def GDB.AddError (db : GDB) (e : Option GoErr) : GDB × Option GoErr :=
  match e with
  | none => (db, db.error)
  | some err =>
      let err :=
        if db.config.translateError then
          match db.config.translator with
          | some f => f err
          | none => err
        else err
      match db.error with
      | none => ({ db with error := some err }, some err)
      | some old =>
          let c := GoErr.combine old err
          ({ db with error := some c }, some c)

/-- `DB.Use` (src/gorm.go:604-614): reject a name already registered
(`ErrRegistered`, registry untouched); otherwise run `Initialize` —
on failure return its error without registering, on success add the
plugin under its name.  The third component counts the `Initialize`
invocations made by the call. -/
def GDB.Use (db : GDB) (p : GPlugin) : GDB × Option GoErr × Nat :=
  if (List.find? (fun e => e.1 = p.name) db.config.plugins).isSome then
    (db, some .registered, 0)
  else
    match p.initErr with
    | some e => (db, some e, 1)
    | none =>
        ({ db with config :=
            { db.config with plugins := db.config.plugins ++ [(p.name, p)] } },
         none, 1)

/-! ## Lookup lemmas -/

theorem Store.Get_Set_self (s : Store) (q : String) (v : GStmt) :
    (s.Set q v).Get q = some v := by
  simp [Store.Get, Store.Set]

theorem Store.Get_Delete_self (s : Store) (q : String) :
    (s.Delete q).Get q = none := by
  simp only [Store.Get, Store.Delete]
  induction s with
  | nil => rfl
  | cons a t ih =>
    by_cases h1 : a.1 = q
    · rw [List.filter_cons_of_neg (by simp [h1])]
      exact ih
    · rw [List.filter_cons_of_pos (by simp [h1]),
        List.find?_cons_of_neg _ (by simp [h1])]
      exact ih

theorem SHeap.get_set_self (h : SHeap) (r : Nat) (v : GStatement) :
    (h.set r v).get r = some v := by
  simp [SHeap.get, SHeap.set]

theorem SHeap.find_filter_ne (t : SHeap) (r r' : Nat) (hne : r' ≠ r) :
    List.find? (fun e => e.1 = r') (List.filter (fun e => e.1 ≠ r) t) =
    List.find? (fun e => e.1 = r') t := by
  induction t with
  | nil => rfl
  | cons a t ih =>
    by_cases h1 : a.1 = r
    · have h2 : ¬ a.1 = r' := fun hh => hne (hh ▸ h1)
      rw [List.filter_cons_of_neg (by simp [h1]),
        List.find?_cons_of_neg _ (by simp [h2])]
      exact ih
    · by_cases h2 : a.1 = r'
      · rw [List.filter_cons_of_pos (by simp [h1]),
          List.find?_cons_of_pos _ (by simp [h2]),
          List.find?_cons_of_pos _ (by simp [h2])]
      · rw [List.filter_cons_of_pos (by simp [h1]),
          List.find?_cons_of_neg _ (by simp [h2]),
          List.find?_cons_of_neg _ (by simp [h2])]
        exact ih

theorem SHeap.get_set_ne (h : SHeap) (r r' : Nat) (v : GStatement)
    (hne : r' ≠ r) : (h.set r v).get r' = h.get r' := by
  simp only [SHeap.get, SHeap.set]
  rw [List.find?_cons_of_neg _ (by simpa using fun hh => (hne hh.symm).elim),
    SHeap.find_filter_ne h r r' hne]

/-! ## Claims about `prepare` -/

/-- C1 (counterexample): a template cached outside a transaction
(`Transaction = false`, handle 5) requested inside a transaction is NOT
given a distinct, separately-tracked statement — `prepare` returns the
cached non-transactional statement itself and leaves the store
untouched, even though the connection would compile a new handle 99. -/
theorem prepare_in_tx_counterexample :
    prepare (fun _ => Except.ok 99)
      [("q", ⟨5, false, none⟩)] [("q", ⟨5, false, none⟩)] true "q"
      = ([("q", ⟨5, false, none⟩)], ⟨5, false, none⟩, none) := by decide

/-- C1 (amended): a template whose cached entry was compiled outside a
transaction is reused as-is by a request made inside a transaction —
the very same statement is returned, nothing is compiled, and the store
is unchanged — and a later request outside the transaction still
returns the original non-transactional statement. -/
theorem prepare_nontx_reused_in_tx (compile compile' : Compiler)
    (s : Store) (q : String) (stmt : GStmt)
    (hget : s.Get q = some stmt) (htx : stmt.Transaction = false) :
    prepareSeq compile s true q = (s, stmt, stmt.Error) ∧
    prepareSeq compile' s false q = (s, stmt, stmt.Error) := by
  constructor <;> simp [prepareSeq, prepare, hget, htx]

/-- C1 witness. -/
theorem prepare_nontx_reused_in_tx_witness :
    prepareSeq (fun _ => Except.ok 99) [("q", ⟨5, false, none⟩)] true "q"
      = ([("q", ⟨5, false, none⟩)], ⟨5, false, none⟩, none) ∧
    prepareSeq (fun _ => Except.ok 42) [("q", ⟨5, false, none⟩)] false "q"
      = ([("q", ⟨5, false, none⟩)], ⟨5, false, none⟩, none) :=
  prepare_nontx_reused_in_tx (fun _ => Except.ok 99) (fun _ => Except.ok 42)
    [("q", ⟨5, false, none⟩)] "q" ⟨5, false, none⟩ rfl rfl

/-- C2: the double-checked protocol of `prepare`.  If the read-locked
lookup finds an entry satisfying `!Transaction || isTransaction`, that
entry and its cached compile error are returned with nothing compiled;
otherwise the write-locked re-check may return a concurrently inserted
satisfying entry; only when both checks fail is a new statement
compiled, tagged with the caller's transaction flag, and stored under
the template. -/
theorem prepare_double_checked (compile : Compiler) (s1 s2 : Store)
    (isTx : Bool) (q : String) :
    (∀ stmt, s1.Get q = some stmt → (!stmt.Transaction || isTx) = true →
        prepare compile s1 s2 isTx q = (s2, stmt, stmt.Error)) ∧
    ((match s1.Get q with
      | some stmt => (!stmt.Transaction || isTx) = false
      | none => True) →
      (∀ stmt, s2.Get q = some stmt → (!stmt.Transaction || isTx) = true →
          prepare compile s1 s2 isTx q = (s2, stmt, stmt.Error)) ∧
      ((match s2.Get q with
        | some stmt => (!stmt.Transaction || isTx) = false
        | none => True) →
        prepare compile s1 s2 isTx q = s2.New compile isTx q ∧
        (prepare compile s1 s2 isTx q).2.1.Transaction = isTx ∧
        ∀ h, compile q = .ok h →
          prepare compile s1 s2 isTx q =
            (s2.Set q ⟨h, isTx, none⟩, ⟨h, isTx, none⟩, none))) := by
  refine ⟨fun stmt hget hc => ?_, fun h1 => ⟨fun stmt hget hc => ?_, fun h2 => ?_⟩⟩
  · simp [prepare, hget, hc]
  · cases hg1 : s1.Get q with
    | none => simp [prepare, hg1, prepare.prepareWrite, hget, hc]
    | some st1 =>
        rw [hg1] at h1
        simp [prepare, hg1, h1, prepare.prepareWrite, hget, hc]
  · have hw : prepare.prepareWrite compile s2 isTx q = s2.New compile isTx q := by
      cases hg2 : s2.Get q with
      | none => simp [prepare.prepareWrite, hg2]
      | some st2 =>
          rw [hg2] at h2
          simp [prepare.prepareWrite, hg2, h2]
    have hp : prepare compile s1 s2 isTx q = s2.New compile isTx q := by
      cases hg1 : s1.Get q with
      | none => simp [prepare, hg1, hw]
      | some st1 =>
          rw [hg1] at h1
          simp [prepare, hg1, h1, hw]
    refine ⟨hp, ?_, fun h hok => ?_⟩
    · rw [hp]
      cases hc : compile q <;> simp [Store.New, hc]
    · rw [hp]
      simp [Store.New, hok]

/-- C2 witness: an empty read snapshot, a write snapshot into which a
concurrent writer inserted a satisfying entry. -/
theorem prepare_double_checked_witness :
    prepare (fun _ => Except.ok 99) [] [("q", ⟨7, false, none⟩)] false "q"
      = ([("q", ⟨7, false, none⟩)], ⟨7, false, none⟩, none) :=
  ((prepare_double_checked (fun _ => Except.ok 99) []
      [("q", ⟨7, false, none⟩)] false "q").2 trivial).1 ⟨7, false, none⟩ rfl rfl


/-! ## Claims about execution-time error handling -/

/-- C3 (counterexample): `QueryRowContext` does not inspect the
execution error.  With a statement cached under "q", an execution that
fails with the broken-connection error returns a row carrying that
error while the entry stays in the store — it is not evicted. -/
theorem queryRow_no_evict_counterexample :
    PreparedStmtDB.QueryRowContext
        ⟨fun _ => Except.ok 7, fun _ => Except.error GoErr.badConn⟩
        [("q", ⟨7, false, none⟩)] "q"
      = ([("q", ⟨7, false, none⟩)], some (Except.error GoErr.badConn)) := by
  rfl

/-- C3 (amended): for `ExecContext` and `QueryContext` on the prepared
connection pool, an execution failure of the broken-connection class
evicts the template's entry before the error is returned, and every
other execution error propagates unchanged without eviction;
`QueryRowContext` never inspects the execution error — it returns the
row carrying it and performs no eviction. -/
theorem badConn_eviction (p : GConn) (s s' : Store) (q : String)
    (stmt : GStmt)
    (hprep : prepareSeq p.compile s false q = (s', stmt, none)) :
    ∀ e, p.run stmt.handle = .error e →
      PreparedStmtDB.ExecContext p s q =
        ((if e.isBadConn then s'.Delete q else s'), .error e) ∧
      PreparedStmtDB.QueryContext p s q =
        ((if e.isBadConn then s'.Delete q else s'), .error e) ∧
      (e.isBadConn = true →
        (PreparedStmtDB.ExecContext p s q).1.Get q = none) ∧
      PreparedStmtDB.QueryRowContext p s q = (s', some (.error e)) := by
  intro e hrun
  refine ⟨?_, ?_, ?_, ?_⟩
  · simp [PreparedStmtDB.ExecContext, hprep, hrun]
  · simp [PreparedStmtDB.QueryContext, hprep, hrun]
  · intro hb
    simp [PreparedStmtDB.ExecContext, hprep, hrun, hb, Store.Get_Delete_self]
  · simp [PreparedStmtDB.QueryRowContext, hprep, hrun]

/-- C3 witness: a cached statement whose execution reports the
broken-connection error. -/
theorem badConn_eviction_witness :
    PreparedStmtDB.ExecContext
        ⟨fun _ => Except.ok 7, fun _ => Except.error GoErr.badConn⟩
        [("q", ⟨7, false, none⟩)] "q"
      = ([], .error GoErr.badConn) ∧
    (PreparedStmtDB.ExecContext
        ⟨fun _ => Except.ok 7, fun _ => Except.error GoErr.badConn⟩
        [("q", ⟨7, false, none⟩)] "q").1.Get "q" = none :=
  have h := badConn_eviction
    ⟨fun _ => Except.ok 7, fun _ => Except.error GoErr.badConn⟩
    [("q", ⟨7, false, none⟩)] [("q", ⟨7, false, none⟩)] "q"
    ⟨7, false, none⟩ rfl GoErr.badConn rfl
  ⟨h.1, h.2.2.1 rfl⟩

/-- C4: `Commit` and `Rollback` on the transactional prepared wrapper
return `ErrInvalidTransaction` when no transaction is bound, and
delegate to the bound transaction object otherwise. -/
theorem commit_rollback_delegate (w : PreparedStmtTX) :
    (w.tx = none →
      w.Commit = some GoErr.invalidTransaction ∧
      w.Rollback = some GoErr.invalidTransaction) ∧
    (∀ t, w.tx = some t →
      w.Commit = t.commitRes ∧ w.Rollback = t.rollbackRes) := by
  refine ⟨fun h => ?_, fun t h => ?_⟩ <;>
    simp [PreparedStmtTX.Commit, PreparedStmtTX.Rollback, h]

/-- C4 witness: an unbound wrapper errors, a bound wrapper delegates. -/
theorem commit_rollback_delegate_witness :
    (PreparedStmtTX.Commit ⟨none⟩ = some GoErr.invalidTransaction ∧
     PreparedStmtTX.Rollback ⟨none⟩ = some GoErr.invalidTransaction) ∧
    (PreparedStmtTX.Commit
        ⟨some ⟨fun _ => Except.ok 0, fun _ => Except.ok 0, none,
               some GoErr.badConn⟩⟩ = none ∧
     PreparedStmtTX.Rollback
        ⟨some ⟨fun _ => Except.ok 0, fun _ => Except.ok 0, none,
               some GoErr.badConn⟩⟩ = some GoErr.badConn) :=
  ⟨(commit_rollback_delegate ⟨none⟩).1 rfl,
   (commit_rollback_delegate
      ⟨some ⟨fun _ => Except.ok 0, fun _ => Except.ok 0, none,
             some GoErr.badConn⟩⟩).2 _ rfl⟩

/-- C5: on an uncached template, the transactional wrapper compiles via
the transaction's own connection, tags the stored statement with
`Transaction = true`, and dispatches it through the transaction's
`StmtContext` runner; the pool-level wrapper compiles via the pool's
connection, tags with `Transaction = false`, and dispatches through the
pool's runner. -/
theorem wrappers_dispatch (t : GTx) (p : GConn) (s : Store) (q : String)
    (ht hq : Nat) (hmiss : s.Get q = none)
    (hct : t.compile q = .ok ht) (hcp : p.compile q = .ok hq) :
    PreparedStmtTX.ExecContext t s q =
      (match t.stmtRun ht with
       | .ok r => (s.Set q ⟨ht, true, none⟩, .ok r)
       | .error e =>
           ((if e.isBadConn then (s.Set q ⟨ht, true, none⟩).Delete q
             else s.Set q ⟨ht, true, none⟩), .error e)) ∧
    PreparedStmtTX.QueryContext t s q =
      (match t.stmtRun ht with
       | .ok r => (s.Set q ⟨ht, true, none⟩, .ok r)
       | .error e =>
           ((if e.isBadConn then (s.Set q ⟨ht, true, none⟩).Delete q
             else s.Set q ⟨ht, true, none⟩), .error e)) ∧
    PreparedStmtDB.ExecContext p s q =
      (match p.run hq with
       | .ok r => (s.Set q ⟨hq, false, none⟩, .ok r)
       | .error e =>
           ((if e.isBadConn then (s.Set q ⟨hq, false, none⟩).Delete q
             else s.Set q ⟨hq, false, none⟩), .error e)) ∧
    PreparedStmtDB.QueryContext p s q =
      (match p.run hq with
       | .ok r => (s.Set q ⟨hq, false, none⟩, .ok r)
       | .error e =>
           ((if e.isBadConn then (s.Set q ⟨hq, false, none⟩).Delete q
             else s.Set q ⟨hq, false, none⟩), .error e)) := by
  have hp1 : prepareSeq t.compile s true q =
      (s.Set q ⟨ht, true, none⟩, ⟨ht, true, none⟩, none) := by
    simp [prepareSeq, prepare, prepare.prepareWrite, Store.New, hmiss, hct]
  have hp2 : prepareSeq p.compile s false q =
      (s.Set q ⟨hq, false, none⟩, ⟨hq, false, none⟩, none) := by
    simp [prepareSeq, prepare, prepare.prepareWrite, Store.New, hmiss, hcp]
  refine ⟨?_, ?_, ?_, ?_⟩
  · simp only [PreparedStmtTX.ExecContext, hp1]
  · simp only [PreparedStmtTX.QueryContext, hp1]
  · simp only [PreparedStmtDB.ExecContext, hp2]
  · simp only [PreparedStmtDB.QueryContext, hp2]

/-- C5 witness: a transaction compiling to handle 3 and running through
its own runner (result 30), beside a pool compiling to handle 4 and
running through the pool runner (result 40). -/
theorem wrappers_dispatch_witness :
    PreparedStmtTX.ExecContext
        ⟨fun _ => Except.ok 3, fun h => Except.ok (10 * h), none, none⟩
        [] "q"
      = ([("q", ⟨3, true, none⟩)], .ok 30) ∧
    PreparedStmtDB.ExecContext
        ⟨fun _ => Except.ok 4, fun h => Except.ok (10 * h)⟩ [] "q"
      = ([("q", ⟨4, false, none⟩)], .ok 40) :=
  have h := wrappers_dispatch
    ⟨fun _ => Except.ok 3, fun h => Except.ok (10 * h), none, none⟩
    ⟨fun _ => Except.ok 4, fun h => Except.ok (10 * h)⟩ [] "q" 3 4 rfl rfl rfl
  ⟨h.1, h.2.2.1⟩


/-! ## Claims about the handle façade -/

/-- C7: `Use` rejects an already-registered name without touching the
registry, aborts registration when `Initialize` fails, and otherwise
adds exactly the one entry, running `Initialize` exactly once. -/
theorem use_registration (db : GDB) (p : GPlugin) :
    ((List.find? (fun e => e.1 = p.name) db.config.plugins).isSome = true →
      db.Use p = (db, some GoErr.registered, 0)) ∧
    ((List.find? (fun e => e.1 = p.name) db.config.plugins).isSome = false →
      (∀ e, p.initErr = some e → db.Use p = (db, some e, 1)) ∧
      (p.initErr = none →
        db.Use p =
          ({ db with config := { db.config with
              plugins := db.config.plugins ++ [(p.name, p)] } }, none, 1))) := by
  refine ⟨fun h => ?_, fun h => ⟨fun e he => ?_, fun he => ?_⟩⟩
  · simp [GDB.Use, h]
  · simp [GDB.Use, h, he]
  · simp [GDB.Use, h, he]

/-- C7 witness: re-registering "a" fails and leaves the registry alone;
registering "b" appends exactly one entry with one `Initialize` call. -/
theorem use_registration_witness :
    GDB.Use ⟨{ plugins := [("a", ⟨"a", none⟩)] }, none, 0, 1⟩ ⟨"a", none⟩
      = (⟨{ plugins := [("a", ⟨"a", none⟩)] }, none, 0, 1⟩,
         some GoErr.registered, 0) ∧
    GDB.Use ⟨{ plugins := [("a", ⟨"a", none⟩)] }, none, 0, 1⟩ ⟨"b", none⟩
      = (⟨{ plugins := [("a", ⟨"a", none⟩), ("b", ⟨"b", none⟩)] },
         none, 0, 1⟩, none, 1) :=
  ⟨(use_registration ⟨{ plugins := [("a", ⟨"a", none⟩)] }, none, 0, 1⟩
      ⟨"a", none⟩).1 rfl,
   ((use_registration ⟨{ plugins := [("a", ⟨"a", none⟩)] }, none, 0, 1⟩
      ⟨"b", none⟩).2 rfl).2 rfl⟩

/-- C8 (counterexample): with `TranslateError` enabled and a dialector
translator in place, `AddError` on an empty handle stores the
translated error, not the argument itself. -/
theorem addError_translation_counterexample :
    (GDB.AddError
        ⟨{ translateError := true,
           translator := some (fun _ => GoErr.msg "T") }, none, 0, 1⟩
        (some (GoErr.msg "x"))).2 = some (GoErr.msg "T") ∧
    GoErr.msg "T" ≠ GoErr.msg "x" :=
  ⟨rfl, by decide⟩

/-- C8 (amended): `AddError` accumulates.  A `nil` argument leaves the
stored error unchanged and returns it.  A non-nil argument is first
passed through the dialector's translator when `TranslateError` is
enabled; the resulting error is stored when none is held, and otherwise
the stored error becomes the wrapped concatenation whose text is the
earlier text followed by the new error's text; in every case the
resulting stored error is returned. -/
theorem addError_accumulates (db : GDB) (e : GoErr) :
    db.AddError none = (db, db.error) ∧
    (let tr := if db.config.translateError then
         match db.config.translator with
         | some f => f e
         | none => e
       else e
     (db.error = none →
        db.AddError (some e) = ({ db with error := some tr }, some tr)) ∧
     (∀ old, db.error = some old →
        db.AddError (some e) =
          ({ db with error := some (GoErr.combine old tr) },
           some (GoErr.combine old tr)) ∧
        (GoErr.combine old tr).text = old.text ++ "; " ++ tr.text)) := by
  refine ⟨rfl, fun h => ?_, fun old h => ⟨?_, rfl⟩⟩
  · simp [GDB.AddError, h]
  · simp [GDB.AddError, h]

/-- C8 witness: two plain errors accumulate into a wrapped error whose
text preserves the first followed by the second. -/
theorem addError_accumulates_witness :
    GDB.AddError ⟨{}, some (GoErr.msg "a"), 0, 1⟩ (some (GoErr.msg "b"))
      = (⟨{}, some (GoErr.combine (GoErr.msg "a") (GoErr.msg "b")), 0, 1⟩,
         some (GoErr.combine (GoErr.msg "a") (GoErr.msg "b"))) ∧
    (GoErr.combine (GoErr.msg "a") (GoErr.msg "b")).text = "a; b" :=
  have h := (addError_accumulates ⟨{}, some (GoErr.msg "a"), 0, 1⟩
      (GoErr.msg "b")).2.2 (GoErr.msg "a") rfl
  ⟨h.1, h.2⟩

/-! ## Claims about `getInstance` -/

/-- A marker-0 handle is returned unchanged by `getInstance`. -/
theorem getInstance_zero (st : SState) (db : GDB) (h : db.clone = 0) :
    getInstance st db = (db, st) := by
  simp [getInstance, h]

/-- C10: a handle returned by `getInstance` carries generation marker 0
and `getInstance` is idempotent on its results; a marker-0 handle is
returned unchanged; a marker-1 handle gets a fresh statement with empty
clauses and vars; a marker-greater-than-1 handle gets a structural
clone of its current statement. -/
theorem getInstance_spec (st : SState) (db : GDB) :
    (getInstance st db).1.clone = 0 ∧
    getInstance (getInstance st db).2 (getInstance st db).1
      = getInstance st db ∧
    (db.clone = 0 → getInstance st db = (db, st)) ∧
    (let parent := (st.heap.get db.stmtRef).getD default
     (db.clone = 1 →
        (getInstance st db).1.stmtRef = st.nextRef ∧
        (getInstance st db).2.heap.get st.nextRef =
          some { connPool := parent.connPool, context := parent.context,
                 clauses := [], vars := [], skipHooks := parent.skipHooks,
                 unscoped := if db.config.propagateUnscoped then
                     parent.unscoped else false }) ∧
     (db.clone > 1 →
        (getInstance st db).1.stmtRef = st.nextRef ∧
        (getInstance st db).2.heap.get st.nextRef = some parent)) := by
  have hzero : (getInstance st db).1.clone = 0 := by
    by_cases h : db.clone > 0
    · simp [getInstance, h]
    · have h0 : db.clone = 0 := by omega
      rw [getInstance_zero st db h0]
      exact h0
  refine ⟨hzero, ?_, fun h0 => getInstance_zero st db h0,
    fun h1 => ?_, fun h2 => ?_⟩
  · rw [getInstance_zero ((getInstance st db).2) ((getInstance st db).1) hzero]
  · have hpos : db.clone > 0 := by omega
    simp [getInstance, hpos, h1, SHeap.get_set_self]
  · have hpos : db.clone > 0 := by omega
    have hne : db.clone ≠ 1 := by omega
    simp [getInstance, hpos, hne, SHeap.get_set_self, GStatement.clone]

/-- C10 witness: a marker-0 handle is a fixed point; a marker-1 handle
receives the fresh empty statement at the next reference. -/
theorem getInstance_spec_witness :
    getInstance ⟨[(0, default)], 1, none, 0⟩ ⟨{}, none, 0, 0⟩
      = (⟨{}, none, 0, 0⟩, ⟨[(0, default)], 1, none, 0⟩) ∧
    (getInstance ⟨[(0, default)], 1, none, 0⟩ ⟨{}, none, 0, 1⟩).2.heap.get 1
      = some default :=
  ⟨(getInstance_spec ⟨[(0, default)], 1, none, 0⟩ ⟨{}, none, 0, 0⟩).2.2.1 rfl,
   ((getInstance_spec ⟨[(0, default)], 1, none, 0⟩
      ⟨{}, none, 0, 1⟩).2.2.2.1 rfl).2⟩


/-! ## Claims about `Session` -/

/-- C6 (counterexample): a derivation with only the `Initialized` flag
set — none of the isolation-requiring flags, `NewDB` unset — ends in
`getInstance`, so the derived handle carries generation marker 0 (the
claim says 2) and holds a fresh statement reference instead of sharing
the parent's (the claim says the statement is shared by reference). -/
theorem session_initialized_counterexample :
    (Session ⟨[(0, default)], 1, none, 0⟩ ⟨{}, none, 0, 2⟩
        { initialized := true }).1.clone = 0 ∧
    (Session ⟨[(0, default)], 1, none, 0⟩ ⟨{}, none, 0, 2⟩
        { initialized := true }).1.stmtRef = 1 := by decide

set_option maxHeartbeats 2000000 in
/-- C6 (amended): for derivations whose `Initialized` flag is unset —
when no isolation-requiring flag (per-call context, prepare-mode,
hook-skip) is set the derived handle shares the parent's statement by
reference, so a mutation through one is a mutation through the other;
when any such flag is set the derived handle gets an independent clone
whose mutations never reach the parent's statement; and the generation
marker is 2 unless `NewDB` is set, in which case it is 1.  (With
`Initialized` set, `Session` additionally applies `getInstance`,
yielding marker 0 and a private statement.) -/
theorem session_share_isolate (st : SState) (db : GDB) (cfg : GSession)
    (hinit : cfg.initialized = false) :
    (cfg.context = none → cfg.prepareStmt = false → cfg.skipHooks = false →
      (Session st db cfg).1.stmtRef = db.stmtRef ∧
      (Session st db cfg).2 = st ∧
      ∀ n v, addClause (Session st db cfg).2 (Session st db cfg).1 n v
           = addClause st db n v) ∧
    ((cfg.context.isSome || cfg.prepareStmt || cfg.skipHooks) = true →
      db.stmtRef < st.nextRef →
      (Session st db cfg).1.stmtRef ≠ db.stmtRef ∧
      (Session st db cfg).2.heap.get db.stmtRef = st.heap.get db.stmtRef ∧
      ∀ n v, (addClause (Session st db cfg).2 (Session st db cfg).1
                n v).heap.get db.stmtRef = st.heap.get db.stmtRef) ∧
    (Session st db cfg).1.clone = (if cfg.newDB then 1 else 2) := by
  refine ⟨fun hcx hp hs => ?_, fun hflag hlt => ?_, ?_⟩
  · simp [Session, addClause, hinit, hcx, hp, hs]
  · have hne : db.stmtRef ≠ st.nextRef := Nat.ne_of_lt hlt
    have hne2 : st.nextRef ≠ db.stmtRef := Ne.symm hne
    rcases hcx : cfg.context with _ | c <;> cases hp : cfg.prepareStmt <;>
      cases hs : cfg.skipHooks <;>
      rcases hcs : st.cacheStore with _ | ⟨d, ip⟩ <;>
      simp_all [Session, sessionPrepare, addClause, GStatement.clone,
        SHeap.get_set_self, SHeap.get_set_ne]
  · rcases hcx : cfg.context with _ | c <;> cases hp : cfg.prepareStmt <;>
      rcases hcs : st.cacheStore with _ | ⟨d, ip⟩ <;>
      cases hs : cfg.skipHooks <;>
      simp [Session, sessionPrepare, hinit, hcx, hp, hcs, hs]

/-- C6 witness: with no flags the derived handle keeps reference 0 and
marker 2; with `SkipHooks` the parent's statement at reference 0 is
untouched by a mutation through the derived handle. -/
theorem session_share_isolate_witness :
    (Session ⟨[(0, default)], 1, none, 0⟩ ⟨{}, none, 0, 1⟩ {}).1.stmtRef
      = 0 ∧
    (Session ⟨[(0, default)], 1, none, 0⟩ ⟨{}, none, 0, 1⟩ {}).1.clone
      = 2 ∧
    (addClause
        (Session ⟨[(0, default)], 1, none, 0⟩ ⟨{}, none, 0, 1⟩
          { skipHooks := true }).2
        (Session ⟨[(0, default)], 1, none, 0⟩ ⟨{}, none, 0, 1⟩
          { skipHooks := true }).1 "w" 9).heap.get 0 = some default :=
  ⟨((session_share_isolate ⟨[(0, default)], 1, none, 0⟩ ⟨{}, none, 0, 1⟩
      {} rfl).1 rfl rfl rfl).1,
   (session_share_isolate ⟨[(0, default)], 1, none, 0⟩ ⟨{}, none, 0, 1⟩
      {} rfl).2.2,
   ((session_share_isolate ⟨[(0, default)], 1, none, 0⟩ ⟨{}, none, 0, 1⟩
      { skipHooks := true } rfl).2.1 rfl (by decide)).2.2 "w" 9⟩

set_option maxHeartbeats 2000000 in
/-- C9: a prepare-mode derivation looks the prepared pool up in the
root's cache under the fixed key, constructing and storing one that
wraps the current pool when absent and reusing the stored one
otherwise; the derived handle's connection is a transactional prepared
wrapper bound to the live transaction when the current connection is a
`Tx`, and a pool-level prepared wrapper otherwise — in both cases
sharing the cached pool's statement store and lock identities. -/
theorem session_prepare_mode (st : SState) (db : GDB) (cfg : GSession)
    (hps : cfg.prepareStmt = true) (hinit : cfg.initialized = false) :
    (st.cacheStore = none →
       (Session st db cfg).2.cacheStore
         = some (⟨st.nextId, st.nextId + 1⟩, db.config.connPool)) ∧
    (∀ d ip, st.cacheStore = some (d, ip) →
       (Session st db cfg).2.cacheStore = some (d, ip)) ∧
    (((st.heap.get db.stmtRef).getD default).connPool.isTx = true →
       (Session st db cfg).1.config.connPool
         = .ptx ((st.heap.get db.stmtRef).getD default).connPool
             (match st.cacheStore with
              | some (d, _) => d
              | none => (⟨st.nextId, st.nextId + 1⟩ : PDBData)) ∧
       ((Session st db cfg).2.heap.get
          (Session st db cfg).1.stmtRef).map GStatement.connPool
         = some (.ptx ((st.heap.get db.stmtRef).getD default).connPool
             (match st.cacheStore with
              | some (d, _) => d
              | none => (⟨st.nextId, st.nextId + 1⟩ : PDBData)))) ∧
    (((st.heap.get db.stmtRef).getD default).connPool.isTx = false →
       (Session st db cfg).1.config.connPool
         = .pdb (match st.cacheStore with
                 | some (d, _) => d
                 | none => (⟨st.nextId, st.nextId + 1⟩ : PDBData))
             db.config.connPool ∧
       ((Session st db cfg).2.heap.get
          (Session st db cfg).1.stmtRef).map GStatement.connPool
         = some (.pdb (match st.cacheStore with
                       | some (d, _) => d
                       | none => (⟨st.nextId, st.nextId + 1⟩ : PDBData))
             db.config.connPool)) := by
  refine ⟨fun hcs => ?_, fun d ip hcs => ?_, fun hitx => ?_, fun hitx => ?_⟩ <;>
    rcases hcx : cfg.context with _ | c <;> cases hs : cfg.skipHooks <;>
    rcases hcs2 : st.cacheStore with _ | ⟨d2, ip2⟩ <;>
    simp_all [Session, sessionPrepare, GStatement.clone,
      SHeap.get_set_self]

/-- C9 witness: from a root whose cache is empty and whose pool is
`raw 7`: a non-transactional derivation constructs and stores the
prepared pool and wraps the statement's pool in a pool-level wrapper;
from a transaction-bound statement (`transact 3`) with the pool already
cached, the wrapper is transactional and reuses the cached store. -/
theorem session_prepare_mode_witness :
    (Session ⟨[(0, default)], 1, none, 5⟩
        ⟨{ connPool := .raw 7 }, none, 0, 1⟩
        { prepareStmt := true }).2.cacheStore
      = some (⟨5, 6⟩, ConnPool.raw 7) ∧
    (Session ⟨[(0, default)], 1, none, 5⟩
        ⟨{ connPool := .raw 7 }, none, 0, 1⟩
        { prepareStmt := true }).1.config.connPool
      = ConnPool.pdb ⟨5, 6⟩ (.raw 7) ∧
    (Session ⟨[(0, { connPool := .transact 3 })], 1, some (⟨9, 10⟩, .raw 7), 5⟩
        ⟨{ connPool := .raw 7 }, none, 0, 1⟩
        { prepareStmt := true }).1.config.connPool
      = ConnPool.ptx (.transact 3) ⟨9, 10⟩ :=
  ⟨(session_prepare_mode ⟨[(0, default)], 1, none, 5⟩
      ⟨{ connPool := .raw 7 }, none, 0, 1⟩ { prepareStmt := true }
      rfl rfl).1 rfl,
   ((session_prepare_mode ⟨[(0, default)], 1, none, 5⟩
      ⟨{ connPool := .raw 7 }, none, 0, 1⟩ { prepareStmt := true }
      rfl rfl).2.2.2 rfl).1,
   ((session_prepare_mode
      ⟨[(0, { connPool := .transact 3 })], 1, some (⟨9, 10⟩, .raw 7), 5⟩
      ⟨{ connPool := .raw 7 }, none, 0, 1⟩ { prepareStmt := true }
      rfl rfl).2.2.1 rfl).1⟩

end Gorm
